import Mathlib

/-!
Shallow embedding of `mutt_account.c` (NeoMutt's account / credential
subsystem): the `Account` record, the account matcher, the URL bridge,
the credential resolver (`getuser` / `getlogin` / `getpass` /
`unsetpass`) and the OAUTHBEARER token builder, together with theorems
about them.

External collaborators (configuration variables, interactive prompts,
process spawning, base64) are modelled as explicit parameters / oracles,
following the spec's description of those interfaces.
-/

namespace MuttAccount

/-- Protocol type of an account (`MUTT_ACCT_TYPE_*`). -/
inductive AccountType where
  | imap
  | pop
  | smtp
  | nntp
deriving DecidableEq, Repr

/-- The `MUTT_ACCT_*` flag bits of an account, as named booleans. -/
structure AcctFlags where
  user : Bool
  login : Bool
  pass : Bool
  port : Bool
  ssl : Bool
deriving DecidableEq, Repr

/-- The `Account` structure: connection target plus credential fields. -/
structure Account where
  type : AccountType
  host : String
  port : Nat
  user : String
  login : String
  pass : String
  flags : AcctFlags
deriving DecidableEq, Repr

/-- The configuration-variable store read by `mutt_account.c`: the
per-protocol username / login / password / OAuth-refresh-command
variables, the system username `Username`, and `OptNoCurses`
(non-interactive mode).  `none` models a NULL config string. -/
structure Config where
  Username : Option String
  ImapUser : Option String
  ImapLogin : Option String
  ImapPass : Option String
  PopUser : Option String
  PopPass : Option String
  NntpUser : Option String
  NntpPass : Option String
  SmtpPass : Option String
  ImapOauthRefreshCmd : Option String
  PopOauthRefreshCmd : Option String
  SmtpOauthRefreshCmd : Option String
  OptNoCurses : Bool
deriving DecidableEq, Repr

/-- ASCII lower-casing of one character, as `tolower` does on ASCII. -/
def lowerAscii (c : Char) : Char :=
  if 'A' ≤ c ∧ c ≤ 'Z' then Char.ofNat (c.toNat + 32) else c

/-- Modelled from the spec: `mutt_str_strcasecmp` (repo string library,
not under `src/`) compared for equality — true iff the two strings are
equal up to ASCII case. -/
def mutt_str_strcasecmp_eq (s1 s2 : String) : Bool :=
  s1.data.map lowerAscii == s2.data.map lowerAscii

/-- `mutt_account_match` — compare account info (host/port/user),
`src/mutt_account.c:60-101`. -/
def mutt_account_match (cfg : Config) (a1 a2 : Account) : Bool :=
  let user0 := cfg.Username.getD ""
  if a1.type ≠ a2.type then false
  else if mutt_str_strcasecmp_eq a1.host a2.host = false then false
  else if a1.port ≠ a2.port then false
  else
    let user1 := if a1.type = AccountType.imap then cfg.ImapUser.getD user0 else user0
    let user2 := if a1.type = AccountType.pop then cfg.PopUser.getD user1 else user1
    let user3 := if a1.type = AccountType.nntp then cfg.NntpUser.getD user2 else user2
    if a1.flags.user = true ∧ a2.flags.user = true then a1.user == a2.user
    else if a1.type = AccountType.nntp then
      if a1.flags.user = true ∧ a1.user ≠ "" then false else true
    else if a1.flags.user = true then a1.user == user3
    else if a2.flags.user = true then a2.user == user3
    else true

/-- URL schemes used by the bridge (`U_*`). -/
inductive UrlScheme where
  | unknown
  | imap
  | imaps
  | pop
  | pops
  | smtp
  | smtps
  | nntp
  | nntps
deriving DecidableEq, Repr

/-- The generic `Url` record as read/written by the bridge.  `none`
models a NULL pointer field; a port of `0` models an absent port. -/
structure Url where
  scheme : UrlScheme
  user : Option String
  pass : Option String
  host : Option String
  port : Nat
  path : Option String
deriving DecidableEq, Repr

/-- `mutt_account_fromurl` — fill an account from a URL,
`src/mutt_account.c:110-135`.  Returns the C return code (0 success,
-1 error) together with the resulting account state. -/
def mutt_account_fromurl (a : Account) (u : Url) : Int × Account :=
  match u.host with
  | none => (-1, a)
  | some h =>
    let a1 := { a with host := h }
    let a2 := match u.user with
      | some s => { a1 with user := s, flags.user := true }
      | none => a1
    let a3 := match u.pass with
      | some s => { a2 with pass := s, flags.pass := true }
      | none => a2
    let a4 := if u.port ≠ 0 then { a3 with port := u.port, flags.port := true } else a3
    (0, a4)

/-- `mutt_account_tourl` — fill a URL from an account,
`src/mutt_account.c:146-201`. -/
def mutt_account_tourl (a : Account) : Url :=
  let scheme :=
    match a.type with
    | AccountType.imap => if a.flags.ssl then UrlScheme.imaps else UrlScheme.imap
    | AccountType.pop => if a.flags.ssl then UrlScheme.pops else UrlScheme.pop
    | AccountType.smtp => if a.flags.ssl then UrlScheme.smtps else UrlScheme.smtp
    | AccountType.nntp => if a.flags.ssl then UrlScheme.nntps else UrlScheme.nntp
  { scheme := scheme
    user := if a.flags.user then some a.user else none
    pass := if a.flags.pass then some a.pass else none
    host := some a.host
    port := if a.flags.port then a.port else 0
    path := none }

/-- Result of one credential-resolution call: the (possibly mutated)
account, the success flag (`true` models a C return of 0), and whether
an interactive prompt was performed during the call. -/
structure RRes where
  a : Account
  ok : Bool
  prompted : Bool
deriving DecidableEq, Repr

/-- `mutt_account_getuser` — retrieve the username into the account if
necessary, `src/mutt_account.c:209-243`.  The prompt service is the
oracle `pr`: `some s` models a successful interactive entry yielding
`s`, `none` models a failed/cancelled prompt (on failure the buffer
keeps its seed, the system username). -/
def mutt_account_getuser (cfg : Config) (pr : Option String) (a : Account) : RRes :=
  if a.flags.user = true then ⟨a, true, false⟩
  else if a.type = AccountType.imap ∧ cfg.ImapUser.isSome = true then
    ⟨{ a with user := cfg.ImapUser.getD "", flags.user := true }, true, false⟩
  else if a.type = AccountType.pop ∧ cfg.PopUser.isSome = true then
    ⟨{ a with user := cfg.PopUser.getD "", flags.user := true }, true, false⟩
  else if a.type = AccountType.nntp ∧ cfg.NntpUser.isSome = true then
    ⟨{ a with user := cfg.NntpUser.getD "", flags.user := true }, true, false⟩
  else if cfg.OptNoCurses = true then ⟨a, false, false⟩
  else
    match pr with
    | none => ⟨{ a with user := cfg.Username.getD "" }, false, true⟩
    | some s => ⟨{ a with user := s, flags.user := true }, true, true⟩

/-- `mutt_account_getlogin` — retrieve the login identity into the
account if necessary, `src/mutt_account.c:251-282`.  Delegates to
`mutt_account_getuser` (with its prompt oracle `pr`) when no
IMAP-specific login configuration applies. -/
def mutt_account_getlogin (cfg : Config) (pr : Option String) (a : Account) : RRes :=
  if a.flags.login = true then ⟨a, true, false⟩
  else
    let a1 :=
      if a.type = AccountType.imap ∧ cfg.ImapLogin.isSome = true then
        { a with login := cfg.ImapLogin.getD "", flags.login := true }
      else a
    if a1.flags.login = true then ⟨a1, true, false⟩
    else
      let r := mutt_account_getuser cfg pr a1
      if r.ok = true then
        ⟨{ r.a with login := r.a.user, flags.login := true }, true, r.prompted⟩
      else ⟨r.a, false, r.prompted⟩

/-- Resolution body of `mutt_account_getpass` (everything after the
PASS-flag short-circuit), `src/mutt_account.c:296-326`.  The masked
password prompt is the oracle `pp`: `some s` models a successful entry
yielding `s`, `none` a failed prompt (the buffer was cleared before
prompting, so the stored password is empty on prompt failure). -/
def getpassResolve (cfg : Config) (pp : Option String) (a : Account) : RRes :=
  if a.type = AccountType.imap ∧ cfg.ImapPass.isSome = true then
    ⟨{ a with pass := cfg.ImapPass.getD "", flags.pass := true }, true, false⟩
  else if a.type = AccountType.pop ∧ cfg.PopPass.isSome = true then
    ⟨{ a with pass := cfg.PopPass.getD "", flags.pass := true }, true, false⟩
  else if a.type = AccountType.smtp ∧ cfg.SmtpPass.isSome = true then
    ⟨{ a with pass := cfg.SmtpPass.getD "", flags.pass := true }, true, false⟩
  else if a.type = AccountType.nntp ∧ cfg.NntpPass.isSome = true then
    ⟨{ a with pass := cfg.NntpPass.getD "", flags.pass := true }, true, false⟩
  else if cfg.OptNoCurses = true then ⟨a, false, false⟩
  else
    match pp with
    | none => ⟨{ a with pass := "" }, false, true⟩
    | some s => ⟨{ a with pass := s, flags.pass := true }, true, true⟩

/-- `mutt_account_getpass` — fetch the password into the account if
necessary, `src/mutt_account.c:290-327`. -/
def mutt_account_getpass (cfg : Config) (pp : Option String) (a : Account) : RRes :=
  if a.flags.pass = true then ⟨a, true, false⟩
  else getpassResolve cfg pp a

/-- `mutt_account_unsetpass` — unset the account's password,
`src/mutt_account.c:333-336`: clears the PASS flag bit and nothing
else. -/
def mutt_account_unsetpass (a : Account) : Account :=
  { a with flags.pass := false }

/-- The base64 alphabet (standard, RFC 4648). -/
def b64chars : List Char :=
  "ABCDEFGHIJKLMNOPQRSTUVWXYZabcdefghijklmnopqrstuvwxyz0123456789+/".data

/-- Character of the base64 alphabet at index `n` (< 64). -/
def b64char (n : Nat) : Char := b64chars.getD n 'A'

/-- Modelled from the spec: `mutt_b64_encode` (repo library, not under
`src/`) — standard base64 with padding over a byte list. -/
def b64encodeBytes : List Nat → List Char
  | a :: b :: c :: rest =>
    let w := a % 256 * 65536 + b % 256 * 256 + c % 256
    b64char (w / 262144) :: b64char (w / 4096 % 64) :: b64char (w / 64 % 64) ::
      b64char (w % 64) :: b64encodeBytes rest
  | [a, b] =>
    let w := a % 256 * 65536 + b % 256 * 256
    [b64char (w / 262144), b64char (w / 4096 % 64), b64char (w / 64 % 64), '=']
  | [a] =>
    let w := a % 256 * 65536
    [b64char (w / 262144), b64char (w / 4096 % 64), '=', '=']
  | [] => []

/-- UTF-8 byte expansion of one character (code point as `Nat`). -/
def utf8Bytes (c : Char) : List Nat :=
  let n := c.toNat
  if n < 128 then [n]
  else if n < 2048 then [192 + n / 64, 128 + n % 64]
  else if n < 65536 then [224 + n / 4096, 128 + n / 64 % 64, 128 + n % 64]
  else [240 + n / 262144, 128 + n / 4096 % 64, 128 + n / 64 % 64, 128 + n % 64]

/-- The bytes of a C string holding the given text (UTF-8). -/
def strBytes (s : String) : List Nat :=
  s.data.flatMap utf8Bytes

/-- Base64-encode the bytes of a string, yielding a string. -/
def b64encodeStr (s : String) : String :=
  String.mk (b64encodeBytes (strBytes s))

/-- Error outcomes of `mutt_account_getoauthbearer`, one per
user-visible diagnostic in `src/mutt_account.c:344-415`. -/
inductive OAErr where
  | loginFailed
  | noRefreshCommand
  | spawnFailed
  | emptyToken
deriving DecidableEq, Repr

/-- The process-service oracle for the OAuth refresh command:
whether `mutt_create_filter` succeeds, and the line (if any) that
`mutt_file_read_line` yields from the command's output (`none` models
a NULL read). -/
structure ProcEnv where
  spawnOk : Bool
  line : Option String
deriving DecidableEq, Repr

/-- Result of `mutt_account_getoauthbearer`: the account state after
the call (the embedded `getlogin` may mutate it), the token or error,
and whether the process-spawn collaborator was invoked. -/
structure OARes where
  a : Account
  res : Except OAErr String
  spawned : Bool
deriving Repr

/-- True iff an OAuth-builder result is an error (a C NULL return). -/
def isErr : Except OAErr String → Bool
  | Except.error _ => true
  | Except.ok _ => false

/-- The RFC 7628 OAUTHBEARER pre-encoding string assembled by the
`snprintf` at `src/mutt_account.c:405-406`. -/
def oauthString (login host : String) (port : Nat) (token : String) : String :=
  "n,a=" ++ login ++ ",\x01host=" ++ host ++ "\x01port=" ++ toString port ++
    "\x01auth=Bearer " ++ token ++ "\x01\x01"

/-- Selection of the protocol-specific OAuth refresh command, the
`#ifdef` chain at `src/mutt_account.c:360-371` (`cmd` stays NULL when
no variable applies; NNTP has no refresh-command variable at all). -/
def refreshCmdFor (cfg : Config) (t : AccountType) : Option String :=
  if t = AccountType.imap ∧ cfg.ImapOauthRefreshCmd.isSome = true then
    cfg.ImapOauthRefreshCmd
  else if t = AccountType.pop ∧ cfg.PopOauthRefreshCmd.isSome = true then
    cfg.PopOauthRefreshCmd
  else if t = AccountType.smtp ∧ cfg.SmtpOauthRefreshCmd.isSome = true then
    cfg.SmtpOauthRefreshCmd
  else none

/-- `mutt_account_getoauthbearer` — build and base64-encode the
OAUTHBEARER token, `src/mutt_account.c:344-415`. -/
def mutt_account_getoauthbearer (cfg : Config) (pr : Option String)
    (env : ProcEnv) (a : Account) : OARes :=
  let r := mutt_account_getlogin cfg pr a
  if r.ok = false then ⟨r.a, Except.error OAErr.loginFailed, false⟩
  else
    match refreshCmdFor cfg r.a.type with
    | none => ⟨r.a, Except.error OAErr.noRefreshCommand, false⟩
    | some _ =>
      if env.spawnOk = false then ⟨r.a, Except.error OAErr.spawnFailed, true⟩
      else
        match env.line with
        | none => ⟨r.a, Except.error OAErr.emptyToken, true⟩
        | some tok =>
          if tok = "" then ⟨r.a, Except.error OAErr.emptyToken, true⟩
          else
            ⟨r.a, Except.ok (b64encodeStr (oauthString r.a.login r.a.host r.a.port tok)), true⟩

/-- Pointwise order on flag bitsets: every bit set in `f` is set in
`g` (no previously-set flag is lost). -/
def flagsLe (f g : AcctFlags) : Prop :=
  (f.user = true → g.user = true) ∧ (f.login = true → g.login = true) ∧
    (f.pass = true → g.pass = true) ∧ (f.port = true → g.port = true) ∧
    (f.ssl = true → g.ssl = true)

instance instDecFlagsLe (f g : AcctFlags) : Decidable (flagsLe f g) := by
  unfold flagsLe; infer_instance

/-- A configuration store with every variable NULL and curses
available (interactive mode). -/
def cfg0 : Config :=
  ⟨none, none, none, none, none, none, none, none, none, none, none, none, false⟩

/-- All flag bits clear. -/
def noFlags : AcctFlags := ⟨false, false, false, false, false⟩

/-- An NNTP account with an explicit non-empty user recorded. -/
def exNntpUserSet : Account :=
  ⟨AccountType.nntp, "news.example.com", 0, "u", "", "", ⟨true, false, false, false, false⟩⟩

/-- The same NNTP endpoint with no explicit user recorded. -/
def exNntpUserUnset : Account :=
  ⟨AccountType.nntp, "news.example.com", 0, "", "", "", noFlags⟩

/-- An IMAP account with the PORT flag set (port field 0). -/
def exPortFlagSet : Account :=
  ⟨AccountType.imap, "mail.example.com", 0, "", "", "", ⟨false, false, false, true, false⟩⟩

/-- The same account with the PORT flag clear. -/
def exPortFlagUnset : Account :=
  ⟨AccountType.imap, "mail.example.com", 0, "", "", "", noFlags⟩

/-- A URL whose host is present but the empty string. -/
def urlEmptyHost : Url := ⟨UrlScheme.unknown, none, none, some "", 0, none⟩

/-- A URL with host, user, pass and port all present. -/
def urlFull : Url :=
  ⟨UrlScheme.unknown, some "alice", some "hunter2", some "mail.example.com", 143, none⟩

/-- A blank IMAP account (nothing resolved). -/
def acct0 : Account := ⟨AccountType.imap, "", 0, "", "", "", noFlags⟩

/-- A blank NNTP account with only a host, login already resolved. -/
def acctNntpLogin : Account :=
  ⟨AccountType.nntp, "news.example.com", 0, "", "bob", "", ⟨false, true, false, false, false⟩⟩

/-- An IMAP account as in the RFC 7628 example: login `bob`, host
`mail.example.com`, port 993, login already resolved. -/
def acctBob : Account :=
  ⟨AccountType.imap, "mail.example.com", 993, "", "bob", "", ⟨false, true, false, false, false⟩⟩

/-- A configuration with only the IMAP OAuth refresh command set. -/
def cfgImapCmd : Config := { cfg0 with ImapOauthRefreshCmd := some "oauth-helper" }

/-- A process environment whose refresh command spawns fine and prints
`tok123`. -/
def envTok : ProcEnv := ⟨true, some "tok123"⟩

/-- A non-interactive configuration (`OptNoCurses` set) with every
variable NULL, under which prompting is impossible. -/
def cfgNoCurses : Config := { cfg0 with OptNoCurses := true }

/-- When the USER flag is already set, `mutt_account_getuser` returns
success immediately without touching the account or prompting. -/
lemma getuser_short (cfg : Config) (pr : Option String) (a : Account)
    (h : a.flags.user = true) : mutt_account_getuser cfg pr a = ⟨a, true, false⟩ := by
  unfold mutt_account_getuser; simp [h]

/-- A successful `mutt_account_getuser` leaves the USER flag set. -/
lemma getuser_ok_flag (cfg : Config) (pr : Option String) (a : Account) :
    (mutt_account_getuser cfg pr a).ok = true →
      (mutt_account_getuser cfg pr a).a.flags.user = true := by
  unfold mutt_account_getuser
  repeat' split
  all_goals simp_all

/-- A failing `mutt_account_getuser` leaves the flag bitset unchanged,
and can only happen when the USER flag was clear. -/
lemma getuser_fail_flags (cfg : Config) (pr : Option String) (a : Account) :
    (mutt_account_getuser cfg pr a).ok = false →
      (mutt_account_getuser cfg pr a).a.flags = a.flags ∧ a.flags.user = false := by
  unfold mutt_account_getuser
  repeat' split
  all_goals simp_all

/-- `mutt_account_getuser` never changes the protocol type. -/
lemma getuser_type (cfg : Config) (pr : Option String) (a : Account) :
    (mutt_account_getuser cfg pr a).a.type = a.type := by
  unfold mutt_account_getuser
  repeat' split
  all_goals simp_all

/-- `mutt_account_getuser` never clears a flag bit. -/
lemma getuser_flags_mono (cfg : Config) (pr : Option String) (a : Account) :
    flagsLe a.flags (mutt_account_getuser cfg pr a).a.flags := by
  unfold mutt_account_getuser flagsLe
  repeat' split
  all_goals simp_all

/-- When the LOGIN flag is already set, `mutt_account_getlogin` returns
success immediately without touching the account or prompting. -/
lemma getlogin_short (cfg : Config) (pr : Option String) (a : Account)
    (h : a.flags.login = true) : mutt_account_getlogin cfg pr a = ⟨a, true, false⟩ := by
  unfold mutt_account_getlogin; simp [h]

/-- A successful `mutt_account_getlogin` leaves the LOGIN flag set. -/
lemma getlogin_ok_flag (cfg : Config) (pr : Option String) (a : Account) :
    (mutt_account_getlogin cfg pr a).ok = true →
      (mutt_account_getlogin cfg pr a).a.flags.login = true := by
  unfold mutt_account_getlogin
  repeat' split
  all_goals (try simp_all)
  all_goals (repeat' split)
  all_goals simp_all

/-- A failing `mutt_account_getlogin` leaves the flag bitset unchanged,
and can only happen when the LOGIN flag was clear. -/
lemma getlogin_fail_flags (cfg : Config) (pr : Option String) (a : Account) :
    (mutt_account_getlogin cfg pr a).ok = false →
      (mutt_account_getlogin cfg pr a).a.flags = a.flags ∧ a.flags.login = false := by
  unfold mutt_account_getlogin
  repeat' split
  all_goals (try simp_all)
  all_goals (repeat' split)
  all_goals (try simp_all)
  all_goals (rename_i hg; exact (getuser_fail_flags cfg pr a hg).1)

/-- `mutt_account_getlogin` never changes the protocol type. -/
lemma getlogin_type (cfg : Config) (pr : Option String) (a : Account) :
    (mutt_account_getlogin cfg pr a).a.type = a.type := by
  unfold mutt_account_getlogin
  repeat' split
  all_goals (try simp_all [getuser_type])
  all_goals (repeat' split)
  all_goals simp_all [getuser_type]

/-- `mutt_account_getlogin` never clears a flag bit. -/
lemma getlogin_flags_mono (cfg : Config) (pr : Option String) (a : Account) :
    flagsLe a.flags (mutt_account_getlogin cfg pr a).a.flags := by
  unfold mutt_account_getlogin
  repeat' split
  all_goals (try simp_all [flagsLe])
  all_goals (repeat' split)
  all_goals (try simp_all [flagsLe])
  all_goals (have hm := getuser_flags_mono cfg pr a; unfold flagsLe at hm; tauto)

/-- When the PASS flag is already set, `mutt_account_getpass` returns
success immediately without touching the account or prompting. -/
lemma getpass_short (cfg : Config) (pp : Option String) (a : Account)
    (h : a.flags.pass = true) : mutt_account_getpass cfg pp a = ⟨a, true, false⟩ := by
  unfold mutt_account_getpass; simp [h]

/-- A successful `mutt_account_getpass` leaves the PASS flag set. -/
lemma getpass_ok_flag (cfg : Config) (pp : Option String) (a : Account) :
    (mutt_account_getpass cfg pp a).ok = true →
      (mutt_account_getpass cfg pp a).a.flags.pass = true := by
  unfold mutt_account_getpass getpassResolve
  repeat' split
  all_goals simp_all

/-- A failing `mutt_account_getpass` leaves the flag bitset unchanged,
and can only happen when the PASS flag was clear. -/
lemma getpass_fail_flags (cfg : Config) (pp : Option String) (a : Account) :
    (mutt_account_getpass cfg pp a).ok = false →
      (mutt_account_getpass cfg pp a).a.flags = a.flags ∧ a.flags.pass = false := by
  unfold mutt_account_getpass getpassResolve
  repeat' split
  all_goals simp_all

/-- `mutt_account_getpass` never clears a flag bit. -/
lemma getpass_flags_mono (cfg : Config) (pp : Option String) (a : Account) :
    flagsLe a.flags (mutt_account_getpass cfg pp a).a.flags := by
  unfold mutt_account_getpass getpassResolve flagsLe
  repeat' split
  all_goals simp_all

/-- The account state `mutt_account_getoauthbearer` hands back is
exactly the one produced by its embedded `mutt_account_getlogin`. -/
lemma getoauthbearer_account (cfg : Config) (pr : Option String) (env : ProcEnv) (a : Account) :
    (mutt_account_getoauthbearer cfg pr env a).a = (mutt_account_getlogin cfg pr a).a := by
  unfold mutt_account_getoauthbearer
  repeat' split
  all_goals (try simp_all)
  all_goals (repeat' split)
  all_goals simp_all

/-- Case-insensitive string comparison is symmetric. -/
lemma strcasecmp_eq_comm (s t : String) :
    mutt_str_strcasecmp_eq s t = mutt_str_strcasecmp_eq t s := by
  unfold mutt_str_strcasecmp_eq
  by_cases h : s.data.map lowerAscii = t.data.map lowerAscii
  · simp [beq_iff_eq, h]
  · have h2 : ¬(t.data.map lowerAscii = s.data.map lowerAscii) := fun hh => h hh.symm
    simp [beq_iff_eq, h, h2]

/-- After a successful login resolution, when no refresh command is
selected for the account's protocol, `mutt_account_getoauthbearer`
fails with the no-refresh-command diagnostic without spawning. -/
lemma getoauthbearer_no_cmd (cfg : Config) (pr : Option String) (env : ProcEnv) (a : Account)
    (hok : (mutt_account_getlogin cfg pr a).ok = true)
    (hc : refreshCmdFor cfg a.type = none) :
    mutt_account_getoauthbearer cfg pr env a =
      ⟨(mutt_account_getlogin cfg pr a).a, Except.error OAErr.noRefreshCommand, false⟩ := by
  have htype := getlogin_type cfg pr a
  unfold mutt_account_getoauthbearer
  simp [hok, htype, hc]

/-- C1: for every account with login `bob`, host `mail.example.com`,
port 993 whose protocol has a refresh command configured and whose
refresh command yields the token `tok123`, `mutt_account_getoauthbearer`
returns exactly the standard base64 encoding (no trailing newline) of
the pre-encoding byte string
`n,a=bob,\x01host=mail.example.com\x01port=993\x01auth=Bearer tok123\x01\x01`,
the explicit encoding being
`bixhPWJvYiwBaG9zdD1tYWlsLmV4YW1wbGUuY29tAXBvcnQ9OTkzAWF1dGg9QmVhcmVyIHRvazEyMwEB`. -/
theorem oauthbearer_rfc7628_exact (cfg : Config) (pr : Option String)
    (env : ProcEnv) (a : Account)
    (hl : a.flags.login = true) (hlogin : a.login = "bob")
    (hhost : a.host = "mail.example.com") (hport : a.port = 993)
    (hcmd : (refreshCmdFor cfg a.type).isSome = true)
    (hspawn : env.spawnOk = true) (hline : env.line = some "tok123") :
    (mutt_account_getoauthbearer cfg pr env a).res =
      Except.ok (b64encodeStr
        "n,a=bob,\x01host=mail.example.com\x01port=993\x01auth=Bearer tok123\x01\x01") ∧
    b64encodeStr "n,a=bob,\x01host=mail.example.com\x01port=993\x01auth=Bearer tok123\x01\x01" =
      "bixhPWJvYiwBaG9zdD1tYWlsLmV4YW1wbGUuY29tAXBvcnQ9OTkzAWF1dGg9QmVhcmVyIHRvazEyMwEB" := by
  constructor
  · have hshort := getlogin_short cfg pr a hl
    obtain ⟨c, hc⟩ := Option.isSome_iff_exists.mp hcmd
    unfold mutt_account_getoauthbearer
    rw [hshort]
    simp [hc, hspawn, hline, hlogin, hhost, hport]
    rfl
  · decide

/-- Witness for C1 at a concrete account, configuration and process
environment. -/
theorem oauthbearer_rfc7628_exact_witness :
    acctBob.login = "bob" ∧ acctBob.host = "mail.example.com" ∧ acctBob.port = 993 ∧
    (refreshCmdFor cfgImapCmd acctBob.type).isSome = true ∧
    (mutt_account_getoauthbearer cfgImapCmd none envTok acctBob).res =
      Except.ok "bixhPWJvYiwBaG9zdD1tYWlsLmV4YW1wbGUuY29tAXBvcnQ9OTkzAWF1dGg9QmVhcmVyIHRvazEyMwEB" := by
  have t := oauthbearer_rfc7628_exact cfgImapCmd none envTok acctBob rfl rfl rfl rfl
    (by decide) rfl rfl
  exact ⟨rfl, rfl, rfl, by decide, t.1.trans (by rw [t.2])⟩

/-- C2 (counterexample): the matcher is not symmetric.  For two NNTP
accounts on the same host where only the first records an explicit
non-empty user, `mutt_account_match` answers `false` one way and
`true` the other way. -/
theorem match_symm_counterexample :
    exNntpUserSet.type = AccountType.nntp ∧
    mutt_account_match cfg0 exNntpUserSet exNntpUserUnset = false ∧
    mutt_account_match cfg0 exNntpUserUnset exNntpUserSet = true := by
  decide

/-- C2 (amended): the matcher is symmetric for every pair of accounts
except the asymmetric NNTP case — whenever the first account is not of
the news protocol, or both accounts agree on whether an explicit user
is recorded, `mutt_account_match` gives the same answer in both
argument orders. -/
theorem match_symm_amended (cfg : Config) (a1 a2 : Account)
    (h : a1.type = AccountType.nntp → a1.flags.user = a2.flags.user) :
    mutt_account_match cfg a1 a2 = mutt_account_match cfg a2 a1 := by
  by_cases ht : a1.type = a2.type
  · have hsym : mutt_str_strcasecmp_eq a2.host a1.host = mutt_str_strcasecmp_eq a1.host a2.host :=
      strcasecmp_eq_comm a2.host a1.host
    have hport : (a2.port = a1.port) ↔ (a1.port = a2.port) := eq_comm
    unfold mutt_account_match
    by_cases hp : a1.port = a2.port <;>
      by_cases hhost : mutt_str_strcasecmp_eq a1.host a2.host = false <;>
      by_cases hu1 : a1.flags.user = true <;>
      by_cases hu2 : a2.flags.user = true <;>
      by_cases hn : a1.type = AccountType.nntp <;>
      simp_all
    all_goals exact eq_comm
  · have ht2 : ¬(a2.type = a1.type) := fun hh => ht hh.symm
    unfold mutt_account_match
    simp [ht, ht2]

/-- Witness for the amended C2 at a concrete non-NNTP pair. -/
theorem match_symm_amended_witness :
    (exPortFlagSet.type = AccountType.nntp →
      exPortFlagSet.flags.user = exPortFlagUnset.flags.user) ∧
    mutt_account_match cfg0 exPortFlagSet exPortFlagUnset =
      mutt_account_match cfg0 exPortFlagUnset exPortFlagSet :=
  ⟨by decide, match_symm_amended cfg0 exPortFlagSet exPortFlagUnset (by decide)⟩

/-- C3 (counterexample): two accounts identical except that one has
its PORT flag set and the other clear nevertheless match — the matcher
never consults the PORT flag. -/
theorem match_port_flag_counterexample :
    exPortFlagSet.flags.port = true ∧
    exPortFlagUnset.flags.port = false ∧
    exPortFlagSet = { exPortFlagUnset with flags.port := true } ∧
    mutt_account_match cfg0 exPortFlagSet exPortFlagUnset = true := by
  decide

/-- C3 (amended): the matcher compares the numeric port fields for
exact equality and ignores the PORT flag bits entirely: flipping either
account's PORT flag never changes the verdict, and differing numeric
ports always mean no match. -/
theorem match_port_exact_flag_ignored (cfg : Config) (a1 a2 : Account) (b1 b2 : Bool) :
    (mutt_account_match cfg { a1 with flags.port := b1 } { a2 with flags.port := b2 } =
      mutt_account_match cfg a1 a2) ∧
    (a1.port ≠ a2.port → mutt_account_match cfg a1 a2 = false) := by
  constructor
  · rfl
  · intro h
    unfold mutt_account_match
    repeat' split
    all_goals simp_all

/-- Witness for the amended C3 at concrete accounts with distinct
ports. -/
theorem match_port_exact_flag_ignored_witness :
    exPortFlagSet.port ≠ 993 ∧
    mutt_account_match cfg0 exPortFlagSet { exPortFlagSet with port := 993 } = false :=
  ⟨by decide,
    (match_port_exact_flag_ignored cfg0 exPortFlagSet { exPortFlagSet with port := 993 }
      true true).2 (by decide)⟩

/-- C4: after a successful `mutt_account_fromurl`, `mutt_account_tourl`
reproduces host, user, pass and port exactly for every field whose flag
bit is set and leaves every flag-clear field absent (user/pass `none`,
port 0); moreover, starting from an account with those flags clear, the
produced URL agrees with the parsed URL on host, user, pass and port. -/
theorem fromurl_tourl_roundtrip (a0 : Account) (u : Url)
    (h : (mutt_account_fromurl a0 u).1 = 0) :
    ((mutt_account_tourl (mutt_account_fromurl a0 u).2).host =
        some (mutt_account_fromurl a0 u).2.host ∧
      (mutt_account_tourl (mutt_account_fromurl a0 u).2).user =
        (if (mutt_account_fromurl a0 u).2.flags.user then
          some (mutt_account_fromurl a0 u).2.user else none) ∧
      (mutt_account_tourl (mutt_account_fromurl a0 u).2).pass =
        (if (mutt_account_fromurl a0 u).2.flags.pass then
          some (mutt_account_fromurl a0 u).2.pass else none) ∧
      (mutt_account_tourl (mutt_account_fromurl a0 u).2).port =
        (if (mutt_account_fromurl a0 u).2.flags.port then
          (mutt_account_fromurl a0 u).2.port else 0)) ∧
    (a0.flags.user = false → a0.flags.pass = false → a0.flags.port = false →
      (mutt_account_tourl (mutt_account_fromurl a0 u).2).host = u.host ∧
      (mutt_account_tourl (mutt_account_fromurl a0 u).2).user = u.user ∧
      (mutt_account_tourl (mutt_account_fromurl a0 u).2).pass = u.pass ∧
      (mutt_account_tourl (mutt_account_fromurl a0 u).2).port = u.port) := by
  constructor
  · unfold mutt_account_tourl
    exact ⟨rfl, rfl, rfl, rfl⟩
  · intro hu hp hport
    rcases hh : u.host with _ | hst
    · unfold mutt_account_fromurl at h; simp [hh] at h
    · unfold mutt_account_fromurl at *
      rw [hh] at *
      rcases huu : u.user with _ | us <;> rcases hup : u.pass with _ | ps <;>
        by_cases hpp : u.port = 0 <;>
        simp_all [mutt_account_tourl]

/-- Witness for C4 at a fully populated URL parsed into a blank
account. -/
theorem fromurl_tourl_roundtrip_witness :
    (mutt_account_fromurl acct0 urlFull).1 = 0 ∧
    ((mutt_account_tourl (mutt_account_fromurl acct0 urlFull).2).host = urlFull.host ∧
      (mutt_account_tourl (mutt_account_fromurl acct0 urlFull).2).user = urlFull.user ∧
      (mutt_account_tourl (mutt_account_fromurl acct0 urlFull).2).pass = urlFull.pass ∧
      (mutt_account_tourl (mutt_account_fromurl acct0 urlFull).2).port = urlFull.port) :=
  ⟨by decide,
    (fromurl_tourl_roundtrip acct0 urlFull (by decide)).2 (by decide) (by decide) (by decide)⟩

/-- C5: `getuser`, `getlogin` and `getpass` are idempotent — after a
successful call, a second call (under any configuration and any prompt
oracle, showing that no configuration lookup and no prompt happen)
returns success immediately with the account unchanged. -/
theorem resolver_idempotent (cfg cfg2 : Config) (pr pr2 pp pp2 : Option String) (a : Account) :
    ((mutt_account_getuser cfg pr a).ok = true →
      mutt_account_getuser cfg2 pr2 (mutt_account_getuser cfg pr a).a =
        ⟨(mutt_account_getuser cfg pr a).a, true, false⟩) ∧
    ((mutt_account_getlogin cfg pr a).ok = true →
      mutt_account_getlogin cfg2 pr2 (mutt_account_getlogin cfg pr a).a =
        ⟨(mutt_account_getlogin cfg pr a).a, true, false⟩) ∧
    ((mutt_account_getpass cfg pp a).ok = true →
      mutt_account_getpass cfg2 pp2 (mutt_account_getpass cfg pp a).a =
        ⟨(mutt_account_getpass cfg pp a).a, true, false⟩) := by
  refine ⟨fun h => ?_, fun h => ?_, fun h => ?_⟩
  · exact getuser_short cfg2 pr2 _ (getuser_ok_flag cfg pr a h)
  · exact getlogin_short cfg2 pr2 _ (getlogin_ok_flag cfg pr a h)
  · exact getpass_short cfg2 pp2 _ (getpass_ok_flag cfg pp a h)

/-- Witness for C5: a concrete successful `getuser` call followed by a
second call under a different (non-interactive, empty) configuration. -/
theorem resolver_idempotent_witness :
    (mutt_account_getuser cfg0 (some "alice") acct0).ok = true ∧
    mutt_account_getuser cfgNoCurses none (mutt_account_getuser cfg0 (some "alice") acct0).a =
      ⟨(mutt_account_getuser cfg0 (some "alice") acct0).a, true, false⟩ :=
  ⟨by decide,
    (resolver_idempotent cfg0 cfgNoCurses (some "alice") none none none acct0).1 (by decide)⟩

/-- C6: `mutt_account_unsetpass` clears exactly the PASS flag bit —
every stored field (including the password characters) and every other
flag bit is unchanged — and a subsequent `mutt_account_getpass` always
runs the resolution body instead of short-circuiting on the flag. -/
theorem unsetpass_clears_only_pass_flag (a : Account) (cfg : Config) (pp : Option String) :
    (mutt_account_unsetpass a).type = a.type ∧
    (mutt_account_unsetpass a).host = a.host ∧
    (mutt_account_unsetpass a).port = a.port ∧
    (mutt_account_unsetpass a).user = a.user ∧
    (mutt_account_unsetpass a).login = a.login ∧
    (mutt_account_unsetpass a).pass = a.pass ∧
    (mutt_account_unsetpass a).flags.user = a.flags.user ∧
    (mutt_account_unsetpass a).flags.login = a.flags.login ∧
    (mutt_account_unsetpass a).flags.port = a.flags.port ∧
    (mutt_account_unsetpass a).flags.ssl = a.flags.ssl ∧
    (mutt_account_unsetpass a).flags.pass = false ∧
    mutt_account_getpass cfg pp (mutt_account_unsetpass a) =
      getpassResolve cfg pp (mutt_account_unsetpass a) := by
  unfold mutt_account_unsetpass mutt_account_getpass
  simp

/-- C7 (counterexample): a URL whose host is present but empty is
accepted by `mutt_account_fromurl` (it returns 0 and copies the empty
host), refuting the claim that an empty host is an error. -/
theorem fromurl_empty_host_counterexample :
    urlEmptyHost.host = some "" ∧
    (mutt_account_fromurl acct0 urlEmptyHost).1 = 0 ∧
    (mutt_account_fromurl acct0 urlEmptyHost).2.host = "" := by
  decide

/-- C7 (amended): `mutt_account_fromurl` fails exactly when the URL's
host is absent (NULL); on that error the account is left completely
unchanged, and for every URL whose host is present — even empty — it
succeeds and copies the host. -/
theorem fromurl_error_iff_no_host (a : Account) (u : Url) :
    ((mutt_account_fromurl a u).1 = -1 ↔ u.host = none) ∧
    (u.host = none → (mutt_account_fromurl a u).2 = a) ∧
    (∀ s, u.host = some s →
      (mutt_account_fromurl a u).1 = 0 ∧ (mutt_account_fromurl a u).2.host = s) := by
  rcases hh : u.host with _ | s
  · unfold mutt_account_fromurl
    simp [hh]
  · unfold mutt_account_fromurl
    rw [hh]
    rcases huu : u.user with _ | us <;> rcases hup : u.pass with _ | ps <;>
      by_cases hpp : u.port = 0 <;>
      simp_all

/-- Witness for the amended C7: a present host succeeds and is copied;
an absent host fails and leaves the account untouched. -/
theorem fromurl_error_iff_no_host_witness :
    ((mutt_account_fromurl acct0 urlFull).1 = 0 ∧
      (mutt_account_fromurl acct0 urlFull).2.host = "mail.example.com") ∧
    ((mutt_account_fromurl acct0 ⟨UrlScheme.unknown, none, none, none, 0, none⟩).1 = -1 ∧
      (mutt_account_fromurl acct0 ⟨UrlScheme.unknown, none, none, none, 0, none⟩).2 = acct0) :=
  ⟨(fromurl_error_iff_no_host acct0 urlFull).2.2 "mail.example.com" (by decide),
    ⟨(fromurl_error_iff_no_host acct0 ⟨UrlScheme.unknown, none, none, none, 0, none⟩).1.mpr
        (by decide),
      (fromurl_error_iff_no_host acct0 ⟨UrlScheme.unknown, none, none, none, 0, none⟩).2.1
        (by decide)⟩⟩

/-- C8: when login resolution succeeds and the account's protocol has
no refresh command configured, `mutt_account_getoauthbearer` fails with
the no-refresh-command diagnostic and never invokes the process-spawn
collaborator. -/
theorem oauthbearer_no_refresh_command (cfg : Config) (pr : Option String)
    (env : ProcEnv) (a : Account)
    (hok : (mutt_account_getlogin cfg pr a).ok = true)
    (h1 : a.type = AccountType.imap → cfg.ImapOauthRefreshCmd = none)
    (h2 : a.type = AccountType.pop → cfg.PopOauthRefreshCmd = none)
    (h3 : a.type = AccountType.smtp → cfg.SmtpOauthRefreshCmd = none) :
    (mutt_account_getoauthbearer cfg pr env a).res = Except.error OAErr.noRefreshCommand ∧
    (mutt_account_getoauthbearer cfg pr env a).spawned = false := by
  have hc : refreshCmdFor cfg a.type = none := by
    unfold refreshCmdFor
    cases hta : a.type <;> simp_all
  rw [getoauthbearer_no_cmd cfg pr env a hok hc]
  exact ⟨rfl, rfl⟩

/-- Witness for C8 at a concrete IMAP account with no refresh command
configured. -/
theorem oauthbearer_no_refresh_command_witness :
    (mutt_account_getlogin cfg0 none acctBob).ok = true ∧
    (mutt_account_getoauthbearer cfg0 none envTok acctBob).res =
      Except.error OAErr.noRefreshCommand ∧
    (mutt_account_getoauthbearer cfg0 none envTok acctBob).spawned = false := by
  have t := oauthbearer_no_refresh_command cfg0 none envTok acctBob (by decide)
    (fun _ => rfl) (fun _ => rfl) (fun _ => rfl)
  exact ⟨by decide, t.1, t.2⟩

/-- C9: failure atomicity of resolution — a failing `getuser`,
`getlogin` or `getpass` leaves every previously set flag bit set and
leaves the flag of the field being resolved clear, and a failing
`getoauthbearer` never clears a previously set flag bit. -/
theorem resolution_failure_atomic (cfg : Config) (pr pp : Option String)
    (env : ProcEnv) (a : Account) :
    ((mutt_account_getuser cfg pr a).ok = false →
      flagsLe a.flags (mutt_account_getuser cfg pr a).a.flags ∧
        (mutt_account_getuser cfg pr a).a.flags.user = false) ∧
    ((mutt_account_getlogin cfg pr a).ok = false →
      flagsLe a.flags (mutt_account_getlogin cfg pr a).a.flags ∧
        (mutt_account_getlogin cfg pr a).a.flags.login = false) ∧
    ((mutt_account_getpass cfg pp a).ok = false →
      flagsLe a.flags (mutt_account_getpass cfg pp a).a.flags ∧
        (mutt_account_getpass cfg pp a).a.flags.pass = false) ∧
    (isErr (mutt_account_getoauthbearer cfg pr env a).res = true →
      flagsLe a.flags (mutt_account_getoauthbearer cfg pr env a).a.flags) := by
  refine ⟨fun h => ?_, fun h => ?_, fun h => ?_, fun _ => ?_⟩
  · obtain ⟨heq, hf⟩ := getuser_fail_flags cfg pr a h
    rw [heq]
    exact ⟨⟨fun x => x, fun x => x, fun x => x, fun x => x, fun x => x⟩, hf⟩
  · obtain ⟨heq, hf⟩ := getlogin_fail_flags cfg pr a h
    rw [heq]
    exact ⟨⟨fun x => x, fun x => x, fun x => x, fun x => x, fun x => x⟩, hf⟩
  · obtain ⟨heq, hf⟩ := getpass_fail_flags cfg pp a h
    rw [heq]
    exact ⟨⟨fun x => x, fun x => x, fun x => x, fun x => x, fun x => x⟩, hf⟩
  · rw [getoauthbearer_account]
    exact getlogin_flags_mono cfg pr a

/-- Witness for C9: concrete failing calls of all four operations in
non-interactive mode with an empty configuration. -/
theorem resolution_failure_atomic_witness :
    ((mutt_account_getuser cfgNoCurses none acct0).ok = false ∧
      flagsLe acct0.flags (mutt_account_getuser cfgNoCurses none acct0).a.flags ∧
      (mutt_account_getuser cfgNoCurses none acct0).a.flags.user = false) ∧
    ((mutt_account_getlogin cfgNoCurses none acct0).ok = false ∧
      flagsLe acct0.flags (mutt_account_getlogin cfgNoCurses none acct0).a.flags ∧
      (mutt_account_getlogin cfgNoCurses none acct0).a.flags.login = false) ∧
    ((mutt_account_getpass cfgNoCurses none acct0).ok = false ∧
      flagsLe acct0.flags (mutt_account_getpass cfgNoCurses none acct0).a.flags ∧
      (mutt_account_getpass cfgNoCurses none acct0).a.flags.pass = false) ∧
    (isErr (mutt_account_getoauthbearer cfgNoCurses none envTok acct0).res = true ∧
      flagsLe acct0.flags (mutt_account_getoauthbearer cfgNoCurses none envTok acct0).a.flags) := by
  have t := resolution_failure_atomic cfgNoCurses none none envTok acct0
  refine ⟨⟨by decide, ?_, ?_⟩, ⟨by decide, ?_, ?_⟩, ⟨by decide, ?_, ?_⟩, ⟨by decide, ?_⟩⟩
  · exact (t.1 (by decide)).1
  · exact (t.1 (by decide)).2
  · exact (t.2.1 (by decide)).1
  · exact (t.2.1 (by decide)).2
  · exact (t.2.2.1 (by decide)).1
  · exact (t.2.2.1 (by decide)).2
  · exact t.2.2.2 (by decide)

/-- C10: for every NNTP account whose login resolution succeeds,
`mutt_account_getoauthbearer` fails with the no-refresh-command error
regardless of any configuration and spawns nothing, because no
refresh-command variable exists for the news protocol. -/
theorem oauthbearer_nntp_always_fails (cfg : Config) (pr : Option String)
    (env : ProcEnv) (a : Account)
    (ht : a.type = AccountType.nntp)
    (hok : (mutt_account_getlogin cfg pr a).ok = true) :
    (mutt_account_getoauthbearer cfg pr env a).res = Except.error OAErr.noRefreshCommand ∧
    (mutt_account_getoauthbearer cfg pr env a).spawned = false := by
  have hc : refreshCmdFor cfg a.type = none := by
    unfold refreshCmdFor
    simp [ht]
  rw [getoauthbearer_no_cmd cfg pr env a hok hc]
  exact ⟨rfl, rfl⟩

/-- Witness for C10 at a concrete NNTP account, under a configuration
that even has the IMAP refresh command set. -/
theorem oauthbearer_nntp_always_fails_witness :
    acctNntpLogin.type = AccountType.nntp ∧
    (mutt_account_getlogin cfgImapCmd none acctNntpLogin).ok = true ∧
    (mutt_account_getoauthbearer cfgImapCmd none envTok acctNntpLogin).res =
      Except.error OAErr.noRefreshCommand ∧
    (mutt_account_getoauthbearer cfgImapCmd none envTok acctNntpLogin).spawned = false := by
  have t := oauthbearer_nntp_always_fails cfgImapCmd none envTok acctNntpLogin rfl (by decide)
  exact ⟨rfl, by decide, t.1, t.2⟩

end MuttAccount
